import Mathlib

/-!
Shallow embedding of the `mlflow_client` experiment-tracking library
(`mlflow_client/runs.py`, `mlflow_client/backends.py`, `mlflow_client/hooks.py`,
`mlflow_client/client.py`), together with theorems settling the behavioural
claims about run lifecycle, metric/parameter logging, model logging and hook
dispatch.

The filesystem is modelled as a pair of total functions: file contents per
path and a directory-existence flag per path.  Paths are lists of segments
(`os.path.join` is list append).  JSON documents written by the library are
kept structurally (a `json.dump` followed by a `json.load` is the identity on
this representation).  Machine-specific content (the `pip freeze` environment
snapshot, pickled bytes, scikit-learn's version) is modelled by fixed
representative constants, since no claim depends on those bytes.
-/

/-- A filesystem path, as a list of segments; `os.path.join` is `++`. -/
abbrev FsPath := List String

/-- JSON values as stored in the documents the library writes. -/
inductive JsonVal where
  | null
  | bool (b : Bool)
  | num (q : ℚ)
  | str (s : String)
  | arr (elems : List JsonVal)
  | obj (fields : List (String × JsonVal))

/-- Python `isinstance(value, str)`. -/
def JsonVal.isStr : JsonVal → Bool
  | .str _ => true
  | _ => false

/-- The value is numeric (an `int` or `float` in the Python source). -/
def JsonVal.isNum : JsonVal → Bool
  | .num _ => true
  | _ => false

/-- Contents of one file on disk. -/
inductive FileData where
  | doc (d : List (String × List JsonVal))
  | metaDoc (d : List (String × JsonVal))
  | raw (content : String)

/-- The filesystem state: contents per file path and a directory flag. -/
structure FS where
  files : FsPath → Option FileData
  dirs : FsPath → Bool

/-- An empty filesystem. -/
def FS.empty : FS := { files := fun _ => none, dirs := fun _ => false }

/-- Parent directory of a path (`os.path.dirname`). -/
def parentDir (p : FsPath) : FsPath := p.dropLast

/-- The final segment of a path (`os.path.split(p)[-1]`). -/
def lastSeg (p : FsPath) : String := p.getLastD ""

/-- Whether `p` lies strictly below directory `base`. -/
def underDir (base p : FsPath) : Bool :=
  base.isPrefixOf p && decide (base.length < p.length)

/-- Store file contents at a path, overwriting any previous contents. -/
def FS.writeFile (fs : FS) (p : FsPath) (d : FileData) : FS :=
  { fs with files := fun q => if q = p then some d else fs.files q }

/-- Python `os.makedirs(p, exist_ok=True)`: mark `p` and all its ancestors
as existing directories. -/
def FS.makedirs (fs : FS) (p : FsPath) : FS :=
  { fs with dirs := fun q => fs.dirs q || (q.isPrefixOf p && !q.isEmpty) }

/-- Errors raised by the Python code; the library raises built-in exception
classes with distinguishing messages. -/
inductive PyErr where
  | valueError (msg : String)
  | fileNotFound (msg : String)
  | fileExists (msg : String)
  | requestError (msg : String)
deriving DecidableEq

/-- Python `str(e)` on an exception. -/
def errMsg : PyErr → String
  | .valueError m => m
  | .fileNotFound m => m
  | .fileExists m => m
  | .requestError m => m

/-- Python `open(p, 'w')` followed by a full rewrite: fails with
`FileNotFoundError` when the parent directory does not exist, otherwise
replaces the file's contents. -/
def FS.openWrite (fs : FS) (p : FsPath) (d : FileData) : FS × Option PyErr :=
  if fs.dirs (parentDir p) then (fs.writeFile p d, none)
  else (fs, some (.fileNotFound "No such file or directory"))

/-- Python `shutil.copy(src, dst)`: when `dst` is an existing directory the
file is copied into it under its own basename, otherwise `dst` names the
target file itself. -/
def FS.copyFile (fs : FS) (src dst : FsPath) : FS × Option PyErr :=
  match fs.files src with
  | none => (fs, some (.fileNotFound "No such file or directory"))
  | some d =>
    let target := if fs.dirs dst then dst ++ [lastSeg src] else dst
    if fs.dirs (parentDir target) then (fs.writeFile target d, none)
    else (fs, some (.fileNotFound "No such file or directory"))

/-- Python `shutil.copytree(src, dst)`: fails if `dst` already exists,
otherwise recreates the whole `src` subtree (files and subdirectories,
with identical relative paths and contents) below `dst`. -/
def FS.copytree (fs : FS) (src dst : FsPath) : FS × Option PyErr :=
  if fs.dirs dst then (fs, some (.fileExists "File exists"))
  else if !fs.dirs src then (fs, some (.fileNotFound "No such file or directory"))
  else
    ({ files := fun t =>
         if underDir dst t then
           match fs.files (src ++ t.drop dst.length) with
           | some d => some d
           | none => fs.files t
         else fs.files t,
       dirs := fun q =>
         fs.dirs q || (q.isPrefixOf dst && !q.isEmpty) ||
           (underDir dst q && fs.dirs (src ++ q.drop dst.length)) },
     none)

/-- Load a metrics/parameters document, defaulting to the empty dict when
the file is absent (the `if os.path.exists` / `json.load` pattern). -/
def loadDoc (fs : FS) (p : FsPath) : List (String × List JsonVal) :=
  match fs.files p with
  | some (.doc d) => d
  | _ => []

/-- Python `doc.setdefault(k, []).append(v)` on a dict of lists. -/
def appendTo : List (String × List JsonVal) → String → JsonVal → List (String × List JsonVal)
  | [], k, v => [(k, [v])]
  | (k', vs) :: rest, k, v =>
    if k' = k then (k', vs ++ [v]) :: rest else (k', vs) :: appendTo rest k v

/-- Dictionary lookup in a dict of lists, `[]` when the key is absent. -/
def docLookup : List (String × List JsonVal) → String → List JsonVal
  | [], _ => []
  | (k', vs) :: rest, k => if k' = k then vs else docLookup rest k

/-- Python dict assignment `d[k] = v` on the metadata document. -/
def setKey : List (String × JsonVal) → String → JsonVal → List (String × JsonVal)
  | [], k, v => [(k, v)]
  | (k', v') :: rest, k, v =>
    if k' = k then (k, v) :: rest else (k', v') :: setKey rest k v

/-- The `Hook` enum of `hooks.py`: the two lifecycle events. -/
inductive Hook where
  | RUN_STARTED
  | RUN_ENDED
deriving DecidableEq

/-- Python `event.name` on the enum member. -/
def Hook.enumName : Hook → String
  | .RUN_STARTED => "RUN_STARTED"
  | .RUN_ENDED => "RUN_ENDED"

/-- Python `event.name.lower()`, the key used into the hooks mapping. -/
def Hook.lowerName : Hook → String
  | .RUN_STARTED => "run_started"
  | .RUN_ENDED => "run_ended"

/-- One registered hook, a `{name, url}` entry of the hooks mapping. -/
structure HookReg where
  name : String
  url : String
deriving DecidableEq

/-- The JSON body `send_hook` POSTs to a hook URL (`hooks.py`).  The
wall-clock `timestamp` field is omitted from the model. -/
structure SentHook where
  event : String
  status : String
  message : Option String
  experiment : String
  run : String
  url : String
deriving DecidableEq

/-- Lookup of `self._hooks[event.name.lower()]`, with `none` when the
`event.name.lower() in self._hooks` membership test fails. -/
def lookupEvent : List (String × List HookReg) → String → Option (List HookReg)
  | [], _ => none
  | (k, regs) :: rest, ev => if k = ev then some regs else lookupEvent rest ev

/-- The `for hook in self._hooks[...]` loop of `with_hooks`: deliver to each
URL in order.  `deliver url = none` means the `requests.post` succeeded;
`deliver url = some e` means it raised a network error, which propagates
immediately (the remaining URLs are not attempted).  Returns the
notifications actually delivered and the first delivery error, if any. -/
def sendSeq (deliver : String → Option PyErr) (mk : HookReg → SentHook) :
    List HookReg → List SentHook × Option PyErr
  | [] => ([], none)
  | h :: rest =>
    match deliver h.url with
    | some e => ([], some e)
    | none =>
      match sendSeq deliver mk rest with
      | (s, err) => (mk h :: s, err)

/-- The body of the `with_hooks(event)` decorator's `wrapper` (`hooks.py`):
run the method (its outcome `methodErr` is computed by the caller, since the
wrapped lifecycle methods mutate `self` whether or not they raise), derive
`status`/`message`, send to every registered URL of the event, then re-raise
the method's error if one occurred.  A delivery error from `send_hook` is not
caught anywhere, so it becomes the wrapper's own outcome. -/
def with_hooks_wrapper (event : Hook) (hooks : List (String × List HookReg))
    (experiment : String) (runStr : String) (deliver : String → Option PyErr)
    (methodErr : Option PyErr) : List SentHook × Option PyErr :=
  let status := match methodErr with | none => "success" | some _ => "failed"
  let message := match methodErr with | none => none | some e => some (errMsg e)
  let sends :=
    match lookupEvent hooks event.lowerName with
    | none => ([], none)
    | some regs =>
      sendSeq deliver
        (fun h => { event := event.enumName, status := status, message := message,
                    experiment := experiment, run := runStr, url := h.url }) regs
  match sends.2 with
  | some e => (sends.1, some e)
  | none => (sends.1, methodErr)

/-- A run identifier: a caller-supplied integer or a generated `uuid.uuid1()`
value (represented by its string form). -/
inductive RunIdVal where
  | int (n : Int)
  | uuid (u : String)
deriving DecidableEq

/-- Python `str(run_id)`. -/
def RunIdVal.str : RunIdVal → String
  | .int n => toString n
  | .uuid u => u

/-- Python `run_id or uuid.uuid1()`: `None` and `0` are falsy and are
replaced by a freshly generated uuid (`fresh`). -/
def ridOfArg (runId : Option Int) (fresh : String) : RunIdVal :=
  match runId with
  | none => .uuid fresh
  | some n => if n = 0 then .uuid fresh else .int n

/-- Python `str(self._run_id)` where `_run_id` may still be `None`. -/
def runIdStr : Option RunIdVal → String
  | none => "None"
  | some rid => rid.str

/-- A fixed representative of the environment snapshot `log_environnment`
captures (`pip freeze` output and interpreter version are machine data). -/
def envInfos : List (String × JsonVal) :=
  [("requirements", .arr []), ("python", .str "3.7.4")]

/-- The `log_environnment` helper of `utils.py`: `os.makedirs(path)` then
write the environment snapshot to `path/meta.json`. -/
def log_environnment (path : FsPath) (fs : FS) : FS :=
  (fs.makedirs path).writeFile (path ++ ["meta.json"]) (.metaDoc envInfos)

/-- The `MLFramework` enum of `runs.py`. -/
inductive MLFramework where
  | PYFUNC
  | SCIKIT_LEARN
  | KERAS
  | PYTORCH
deriving DecidableEq

/-- The `model` argument of `log_model`: either a Python `str` holding a
filesystem path, or some non-string object (rejected on the PYFUNC path). -/
inductive ModelSource where
  | path (p : FsPath)
  | notAStr
deriving DecidableEq

/-- Python truthiness of the optional `load_entry_point` string argument:
`None` and the empty string are falsy. -/
def strTruthy : Option String → Bool
  | none => false
  | some s => !(s = "")

/-- Fixed representative of `sklearn.__version__`. -/
def skVersion : String := "0.21.3"

/-- Fixed representative of the bytes `pickle.dump` writes for a model. -/
def pickled (_ : ModelSource) : FileData := .raw "<pickled model>"

/-- The `LocalRun` class of `runs.py`: hooks mapping, run id, started flag,
experiment name and current logging path. -/
structure LocalRun where
  hooks : List (String × List HookReg)
  runId : Option RunIdVal
  runStarted : Bool
  experimentName : String
  path : FsPath

/-- The `LocalRun.__init__` constructor: `self._path = os.path.join(path,
'mlruns', experiment_name)`, with no run yet. -/
def LocalRun.init (path : FsPath) (experimentName : String)
    (hooks : List (String × List HookReg)) : LocalRun :=
  { hooks := hooks, runId := none, runStarted := false,
    experimentName := experimentName, path := path ++ ["mlruns", experimentName] }

/-- The `LocalRun.log_metric` method (`runs.py`): reject string values, then
read-modify-write `self._path/metrics.json`, appending the value to the
metric's sequence.  Note the method does not consult `self._run_started`. -/
def LocalRun.log_metric (r : LocalRun) (metric : String) (value : JsonVal)
    (fs : FS) : FS × Option PyErr :=
  if value.isStr then (fs, some (.valueError "Metrics should be only numerical"))
  else
    let p := r.path ++ ["metrics.json"]
    let metrics := loadDoc fs p
    fs.openWrite p (.doc (appendTo metrics metric value))

/-- The `LocalRun.log_parameter` method (`runs.py`): read-modify-write
`self._path/parameters.json` with no type restriction. -/
def LocalRun.log_parameter (r : LocalRun) (parameter : String) (value : JsonVal)
    (fs : FS) : FS × Option PyErr :=
  let p := r.path ++ ["parameters.json"]
  let parameters := loadDoc fs p
  fs.openWrite p (.doc (appendTo parameters parameter value))

/-- The `LocalRun._get_metadata` read of `self._path/meta.json`; raises
`FileNotFoundError` when the file is absent. -/
def LocalRun.getMetadata (r : LocalRun) (fs : FS) :
    Option (List (String × JsonVal)) :=
  match fs.files (r.path ++ ["meta.json"]) with
  | some (.metaDoc d) => some d
  | _ => none

/-- The `LocalRun.log_model` method (`runs.py`): create
`self._path/artifacts/<output_dir>`, load the run metadata, dispatch on the
library (pickle for scikit-learn; path/entry-point validation plus
`copytree`/`shutil.copy` into `<output_dir>/data` for PYFUNC; a silent no-op
for other libraries), stamp `updateTime` and rewrite `meta.json`.  `now` is
the `str(datetime.now())` timestamp. -/
def LocalRun.log_model (r : LocalRun) (model : ModelSource) (outputDir : String)
    (library : MLFramework) (loadEntryPoint : Option String) (now : String)
    (fs : FS) : FS × Option PyErr :=
  let path := r.path ++ ["artifacts", outputDir]
  let fs := fs.makedirs path
  match r.getMetadata fs with
  | none => (fs, some (.fileNotFound "No such file or directory"))
  | some metadata =>
    match library with
    | .SCIKIT_LEARN =>
      let metadata := setKey metadata "scikit-learn" (.str skVersion)
      let fs := fs.writeFile (path ++ ["model.pkl"]) (pickled model)
      let metadata := setKey metadata "updateTime" (.str now)
      fs.openWrite (r.path ++ ["meta.json"]) (.metaDoc metadata)
    | .PYFUNC =>
      match model with
      | .notAStr =>
        (fs, some (.valueError "For Pyfunc models, model needs to be a path to persisted model or a path to a directory containing the persisted model(s)"))
      | .path m =>
        if !strTruthy loadEntryPoint then
          (fs, some (.valueError "For Pyfunc models, param load_entry_point needs to be passed"))
        else
          let metadata := setKey metadata "loadEntryPoint"
            (.str (loadEntryPoint.getD ""))
          let dataPath := path ++ ["data"]
          let copied :=
            if fs.dirs m then fs.copytree m (dataPath ++ [lastSeg m])
            else fs.copyFile m dataPath
          match copied with
          | (fs, some e) => (fs, some e)
          | (fs, none) =>
            let metadata := setKey metadata "updateTime" (.str now)
            fs.openWrite (r.path ++ ["meta.json"]) (.metaDoc metadata)
    | _ =>
      let metadata := setKey metadata "updateTime" (.str now)
      fs.openWrite (r.path ++ ["meta.json"]) (.metaDoc metadata)

/-- The body of `LocalRun.start_run` before hook dispatch: pick the run id
(`run_id or uuid.uuid1()`), set the started flag, join the id onto the
current `self._path`, and call `log_environnment` on the new path.  It never
raises. -/
def LocalRun.start_run_method (r : LocalRun) (runId : Option Int) (fresh : String)
    (fs : FS) : LocalRun × FS :=
  let rid := ridOfArg runId fresh
  let r' := { r with runId := some rid, runStarted := true,
                     path := r.path ++ [rid.str] }
  (r', log_environnment r'.path fs)

/-- The body of `LocalRun.end_run` before hook dispatch: clear the started
flag (the path and run id are kept). -/
def LocalRun.end_run_method (r : LocalRun) : LocalRun :=
  { r with runStarted := false }

/-- `LocalRun.start_run` as decorated by `@with_hooks(Hook.RUN_STARTED)`:
run the method, then dispatch the RUN_STARTED hooks with the post-method
experiment name and run id. -/
def LocalRun.start_run (r : LocalRun) (runId : Option Int) (fresh : String)
    (deliver : String → Option PyErr) (fs : FS) :
    (LocalRun × FS) × (List SentHook × Option PyErr) :=
  let rfs := r.start_run_method runId fresh fs
  (rfs, with_hooks_wrapper Hook.RUN_STARTED rfs.1.hooks rfs.1.experimentName
          (runIdStr rfs.1.runId) deliver none)

/-- `LocalRun.end_run` as decorated by `@with_hooks(Hook.RUN_ENDED)`. -/
def LocalRun.end_run (r : LocalRun) (deliver : String → Option PyErr) :
    LocalRun × (List SentHook × Option PyErr) :=
  let r' := r.end_run_method
  (r', with_hooks_wrapper Hook.RUN_ENDED r'.hooks r'.experimentName
         (runIdStr r'.runId) deliver none)

/-- The metrics document of run `r` as read back from disk. -/
def metricsAt (r : LocalRun) (fs : FS) : List (String × List JsonVal) :=
  loadDoc fs (r.path ++ ["metrics.json"])

/-- A sequence of `log_metric` calls performed in order, stopping at the
first raised exception (as Python control flow would). -/
def runLogMetrics (r : LocalRun) (fs : FS) :
    List (String × JsonVal) → FS × Option PyErr
  | [] => (fs, none)
  | (m, v) :: rest =>
    match r.log_metric m v fs with
    | (fs', none) => runLogMetrics r fs' rest
    | (fs', some e) => (fs', some e)

/-- The `_run_started` attribute of `LocalBackend` (`backends.py`): `0` when
inactive, otherwise the run id value (which is truthy). -/
inductive RunState where
  | inactive
  | active (rid : RunIdVal)
deriving DecidableEq

/-- Python `self._run_started == 0` (a `uuid.UUID` never equals `0`). -/
def RunState.eqZero : RunState → Bool
  | .inactive => true
  | .active (.int n) => decide (n = 0)
  | .active (.uuid _) => false

/-- The `LocalBackend` class of `backends.py`. -/
structure LocalBackend where
  path : FsPath
  runStarted : RunState

/-- The `LocalBackend.__init__` constructor: `self._path =
os.path.join(root_path, 'mlruns')`, inactive. -/
def LocalBackend.init (rootPath : FsPath) : LocalBackend :=
  { path := rootPath ++ ["mlruns"], runStarted := .inactive }

/-- `LocalBackend.log_metric` with its `@if_run_active` guard inlined: raise
when `self._run_started` is falsy, otherwise the same read-modify-write as
`LocalRun.log_metric` under `self._path/<run_id>/`. -/
def LocalBackend.log_metric (b : LocalBackend) (metric : String)
    (value : JsonVal) (fs : FS) : FS × Option PyErr :=
  match b.runStarted with
  | .inactive => (fs, some (.valueError "Logging method called without any active run"))
  | .active rid =>
    if value.isStr then (fs, some (.valueError "Metrics should be only numerical"))
    else
      let p := b.path ++ [rid.str, "metrics.json"]
      let metrics := loadDoc fs p
      fs.openWrite p (.doc (appendTo metrics metric value))

/-- The entry of the `LocalBackend.start_run` context manager (`backends.py`):
assign `self._run_started = run_id or uuid.uuid1()`, then the (dead) sentinel
check `if self._run_started == 0`, then `log_environnment` under the run
directory. -/
def LocalBackend.start_run_enter (b : LocalBackend) (runId : Option Int)
    (fresh : String) (fs : FS) : (LocalBackend × FS) × Option PyErr :=
  let rid := ridOfArg runId fresh
  let b' := { b with runStarted := .active rid }
  if (RunState.active rid).eqZero then
    ((b', fs), some (.valueError "Run Id cannot be None or 0"))
  else
    ((b', log_environnment (b'.path ++ [rid.str]) fs), none)

/-- The result of the `get_auto_backend` factory (`backends.py`): which
backend class is constructed, and with which tracking-URI argument. -/
inductive AutoBackendChoice where
  | localStorage
  | mlflowBackend (uri : Option String)
deriving DecidableEq

/-- The `get_auto_backend` factory (`backends.py`): `LocalBackend` when
`import mlflow` raises `ImportError`; otherwise `MLFlowBackend(uri)` when
`MLFLOW_TRACKING_URI` is in the environment, else `MLFlowBackend()` (which
leaves the tracking library's default URI in force). -/
def get_auto_backend (mlflowImportable : Bool) (trackingUriEnv : Option String) :
    AutoBackendChoice :=
  if mlflowImportable then
    match trackingUriEnv with
    | some uri => .mlflowBackend (some uri)
    | none => .mlflowBackend none
  else .localStorage

/-- A root directory `base/` with nothing in it. -/
def baseFS : FS := FS.empty.makedirs ["base"]

/-- A `LocalRun('base')` with the default experiment name and no hooks. -/
def demoRun : LocalRun := LocalRun.init ["base"] "DefaultExperiment" []

/-- The result of `demoRun.start_run()` (generated id `u1`, deliveries ok). -/
def demoStart : (LocalRun × FS) × (List SentHook × Option PyErr) :=
  demoRun.start_run none "u1" (fun _ => none) baseFS

/-- The run object after `start_run`. -/
def demoRun1 : LocalRun := demoStart.1.1

/-- The filesystem after `start_run`. -/
def demoFS1 : FS := demoStart.1.2

/-- The run object after `start_run()` followed by `end_run()`. -/
def demoRun2 : LocalRun := (demoRun1.end_run (fun _ => none)).1

/-- A hooks mapping with a single RUN_STARTED registration. -/
def hooksOne : List (String × List HookReg) :=
  [("run_started", [⟨"h", "http://unreachable"⟩])]

/-- A `LocalRun` constructed with `hooksOne`. -/
def hookedRun : LocalRun := LocalRun.init ["base"] "E" hooksOne

/-- A delivery oracle where every `requests.post` raises a network error. -/
def delivFail : String → Option PyErr :=
  fun _ => some (.requestError "connection refused")

/-- A hooks mapping with two RUN_STARTED registrations. -/
def hooksTwo : List (String × List HookReg) :=
  [("run_started", [⟨"a", "uA"⟩, ⟨"b", "uB"⟩])]

/-- A delivery oracle where only the first URL is unreachable. -/
def delivFirstFails : String → Option PyErr :=
  fun u => if u = "uA" then some (.requestError "down") else none

/-- A `LocalRun('base', 'exp')` for the round-trip scenario. -/
def expRun : LocalRun := LocalRun.init ["base"] "exp" []

/-- Result of starting `expRun` on an empty filesystem (generated id `run1`). -/
def expStart : (LocalRun × FS) × (List SentHook × Option PyErr) :=
  expRun.start_run none "run1" (fun _ => none) FS.empty

/-- The started round-trip run. -/
def expRun1 : LocalRun := expStart.1.1

/-- Filesystem after starting the round-trip run. -/
def expFS1 : FS := expStart.1.2

/-- Filesystem after `log_parameter('alpha', 0.05)`. -/
def expFS2 : FS := (expRun1.log_parameter "alpha" (.num (1/20)) expFS1).1

/-- Filesystem after the further `log_metric('mse', 3.5)`. -/
def expFS3 : FS := (expRun1.log_metric "mse" (.num (7/2)) expFS2).1

/-- A fresh `LocalRun` object pointed at the same base path and experiment,
used only to read the persisted documents back. -/
def freshRun : LocalRun := LocalRun.init ["base"] "exp" []

/-- An already-active run for the `log_model` scenarios. -/
def pyfuncRun : LocalRun :=
  { hooks := [], runId := some (.uuid "r1"), runStarted := true,
    experimentName := "E", path := ["b", "mlruns", "E", "r1"] }

/-- A filesystem holding `pyfuncRun`'s directory, its `meta.json`, and one
externally-serialised model file `b/src.pkl`. -/
def pyfuncFS : FS :=
  ((FS.empty.makedirs ["b", "mlruns", "E", "r1"]).writeFile
      ["b", "mlruns", "E", "r1", "meta.json"] (.metaDoc envInfos)).writeFile
    ["b", "src.pkl"] (.raw "MODEL")

/-- Logging the single-file PYFUNC model on a fresh run directory. -/
def pyfuncRes : FS × Option PyErr :=
  pyfuncRun.log_model (.path ["b", "src.pkl"]) "model" .PYFUNC (some "mod.load") "T" pyfuncFS

/-- A filesystem that additionally holds a model directory `b/srcdir/`
containing one file, for the directory-source `log_model` scenario. -/
def pyfuncDirFS : FS :=
  (pyfuncFS.makedirs ["b", "srcdir"]).writeFile ["b", "srcdir", "f.pkl"] (.raw "M")

/-- First `start_run` of the double-start scenario (generated id `id1`). -/
def nest1 : (LocalRun × FS) × (List SentHook × Option PyErr) :=
  (LocalRun.init ["base"] "exp2" []).start_run none "id1" (fun _ => none) FS.empty

/-- Run object after the first `start_run`. -/
def nestRun1 : LocalRun := nest1.1.1

/-- Filesystem after the first `start_run`. -/
def nestFS1 : FS := nest1.1.2

/-- Second `start_run` on the same object (generated id `id2`). -/
def nest2 : (LocalRun × FS) × (List SentHook × Option PyErr) :=
  nestRun1.start_run none "id2" (fun _ => none) nestFS1

/-- Run object after the second `start_run`. -/
def nestRun2 : LocalRun := nest2.1.1

/-- Filesystem after the second `start_run`. -/
def nestFS2 : FS := nest2.1.2

/-- A hooks mapping with a single RUN_ENDED registration. -/
def hooksEnd : List (String × List HookReg) :=
  [("run_ended", [⟨"h", "http://unreachable"⟩])]

/-- A started `LocalRun` carrying the RUN_ENDED registration (its start sent
nothing, since no RUN_STARTED hook is registered). -/
def endHookedRun : LocalRun :=
  ((LocalRun.init ["base"] "E2" hooksEnd).start_run none "u1" (fun _ => none)
    baseFS).1.1

/-! Helper lemmas about the filesystem model and the JSON documents. -/

/-- A list is a prefix of itself (Boolean form). -/
theorem isPrefixOf_self_eq (l : List String) : l.isPrefixOf l = true := by
  simp [List.isPrefixOf_iff_prefix]

/-- A list is a prefix of itself followed by anything (Boolean form). -/
theorem isPrefixOf_append_right (l t : List String) : l.isPrefixOf (l ++ t) = true := by
  simp [List.isPrefixOf_iff_prefix]

/-- Decompose a Boolean prefix fact into an explicit suffix. -/
theorem exists_suffix_of_isPrefixOf {l₁ l₂ : List String}
    (h : l₁.isPrefixOf l₂ = true) : ∃ t, l₂ = l₁ ++ t := by
  rw [List.isPrefixOf_iff_prefix] at h
  obtain ⟨t, ht⟩ := h
  exact ⟨t, ht.symm⟩

/-- A path extended by a nonempty suffix lies strictly under the base. -/
theorem underDir_append {base t : FsPath} (ht : t ≠ []) :
    underDir base (base ++ t) = true := by
  have : 0 < t.length := List.length_pos.mpr ht
  simp [underDir, isPrefixOf_append_right]
  omega

/-- Strictly-under decomposition: the suffix is explicit and nonempty. -/
theorem underDir_decomp {base p : FsPath} (h : underDir base p = true) :
    ∃ t, t ≠ [] ∧ p = base ++ t := by
  unfold underDir at h
  rw [Bool.and_eq_true, decide_eq_true_eq] at h
  obtain ⟨t, ht⟩ := exists_suffix_of_isPrefixOf h.1
  refine ⟨t, ?_, ht⟩
  intro hnil
  subst hnil
  simp [ht] at h

/-- `makedirs` marks the requested directory itself as existing. -/
theorem makedirs_dirs_self (fs : FS) {p : FsPath} (hp : p ≠ []) :
    (fs.makedirs p).dirs p = true := by
  simp [FS.makedirs, isPrefixOf_self_eq, hp]

/-- `makedirs` marks every nonempty ancestor of the requested directory. -/
theorem makedirs_dirs_of_isPrefixOf (fs : FS) {p q : FsPath} (hq : q ≠ [])
    (hpre : q.isPrefixOf p = true) : (fs.makedirs p).dirs q = true := by
  simp [FS.makedirs, hpre, hq]

/-- `makedirs` never unmarks a directory. -/
theorem makedirs_dirs_mono (fs : FS) {p q : FsPath} (h : fs.dirs q = true) :
    (fs.makedirs p).dirs q = true := by
  simp [FS.makedirs, h]

/-- `writeFile` stores the new contents at the written path. -/
theorem writeFile_files_same (fs : FS) (p : FsPath) (d : FileData) :
    (fs.writeFile p d).files p = some d := by
  simp [FS.writeFile]

/-- `writeFile` leaves every other path's contents alone. -/
theorem writeFile_files_ne (fs : FS) {p q : FsPath} (d : FileData) (h : q ≠ p) :
    (fs.writeFile p d).files q = fs.files q := by
  simp [FS.writeFile, h]

/-- Reading back a just-written document yields that document. -/
theorem loadDoc_writeFile_doc (fs : FS) (p : FsPath) (d : List (String × List JsonVal)) :
    loadDoc (fs.writeFile p (.doc d)) p = d := by
  simp [loadDoc, FS.writeFile]

/-- Appending under one key changes exactly that key's sequence. -/
theorem docLookup_appendTo (d : List (String × List JsonVal)) (k : String)
    (v : JsonVal) (k' : String) :
    docLookup (appendTo d k v) k' =
      if k = k' then docLookup d k' ++ [v] else docLookup d k' := by
  induction d with
  | nil =>
    by_cases h : k = k' <;> simp [appendTo, docLookup, h]
  | cons hd tl ih =>
    obtain ⟨k₀, vs₀⟩ := hd
    by_cases h₀ : k₀ = k <;> by_cases h' : k₀ = k' <;> by_cases h2 : k = k' <;>
      simp_all [appendTo, docLookup]

/-- A numeric value is not a string. -/
theorem isStr_false_of_isNum {v : JsonVal} (h : v.isNum = true) : v.isStr = false := by
  cases v <;> simp [JsonVal.isNum, JsonVal.isStr] at h ⊢

/-- Characterisation of a successful `LocalRun.log_metric` call: with the run
directory present and a non-string value, it rewrites `metrics.json` with the
value appended. -/
theorem log_metric_success (r : LocalRun) (m : String) (v : JsonVal) (fs : FS)
    (hdir : fs.dirs r.path = true) (hv : v.isStr = false) :
    r.log_metric m v fs =
      (fs.writeFile (r.path ++ ["metrics.json"])
        (.doc (appendTo (metricsAt r fs) m v)), none) := by
  simp [LocalRun.log_metric, hv, FS.openWrite, parentDir, metricsAt, hdir]

/-- A successful `log_metric` raises nothing and appends the value to the
metric's sequence on disk. -/
theorem log_metric_append (r : LocalRun) (m : String) (v : JsonVal) (fs : FS)
    (hdir : fs.dirs r.path = true) (hv : v.isStr = false) :
    (r.log_metric m v fs).2 = none ∧
    docLookup (metricsAt r ((r.log_metric m v fs).1)) m =
      docLookup (metricsAt r fs) m ++ [v] := by
  rw [log_metric_success r m v fs hdir hv]
  refine ⟨rfl, ?_⟩
  simp [metricsAt, loadDoc_writeFile_doc, docLookup_appendTo]

/-- A sequence of numeric `log_metric` calls raises nothing and appends each
value to its metric's sequence in call order. -/
theorem runLogMetrics_spec (r : LocalRun) (calls : List (String × JsonVal)) (m : String) :
    ∀ fs : FS, fs.dirs r.path = true → (∀ c ∈ calls, (c.2).isNum = true) →
    (runLogMetrics r fs calls).2 = none ∧
    docLookup (metricsAt r (runLogMetrics r fs calls).1) m =
      docLookup (metricsAt r fs) m ++
        ((calls.filter (fun c => decide (c.1 = m))).map Prod.snd) := by
  induction calls with
  | nil =>
    intro fs _ _
    simp [runLogMetrics]
  | cons c rest ih =>
    intro fs hdir hnum
    obtain ⟨m₀, v₀⟩ := c
    have hv : v₀.isStr = false :=
      isStr_false_of_isNum (hnum (m₀, v₀) (by simp))
    have hstep := log_metric_success r m₀ v₀ fs hdir hv
    have hrest := ih (fs.writeFile (r.path ++ ["metrics.json"])
        (.doc (appendTo (metricsAt r fs) m₀ v₀)))
      (by simpa [FS.writeFile] using hdir)
      (fun c hc => hnum c (by simp [hc]))
    constructor
    · simp only [runLogMetrics, hstep]
      exact hrest.1
    · simp only [runLogMetrics, hstep]
      rw [hrest.2]
      have hmet : metricsAt r (fs.writeFile (r.path ++ ["metrics.json"])
          (.doc (appendTo (metricsAt r fs) m₀ v₀))) =
          appendTo (metricsAt r fs) m₀ v₀ := by
        simp [metricsAt, loadDoc_writeFile_doc]
      rw [hmet, docLookup_appendTo]
      by_cases hm : m₀ = m <;> simp [hm]

/-- When every delivery succeeds, the hook loop notifies every registered
URL in order and raises nothing. -/
theorem sendSeq_all_delivered (deliver : String → Option PyErr)
    (mk : HookReg → SentHook) (l : List HookReg)
    (h : ∀ hr ∈ l, deliver hr.url = none) :
    sendSeq deliver mk l = (l.map mk, none) := by
  induction l with
  | nil => rfl
  | cons hr rest ih =>
    have h0 : deliver hr.url = none := h hr (by simp)
    have hrest := ih (fun x hx => h x (by simp [hx]))
    simp [sendSeq, h0, hrest]

/-! Claim theorems. -/

/-- C1.  The claim says every logging operation on an inactive run raises
`RunNotActiveError` and leaves the filesystem unchanged.  The code contradicts
this for `LocalRun`: its logging methods never consult `_run_started`.
Before `start_run` the write fails only incidentally (`FileNotFoundError`
because the run directory does not exist yet — not the guard error raised by
`if_run_active`), and after `end_run` the call succeeds outright and appends
to the ended run's `metrics.json` on disk.  `LocalBackend`, by contrast,
carries the intended `if_run_active` guard. -/
theorem c1_localrun_logging_unguarded :
    (demoRun.log_metric "mse" (.num (7/2)) baseFS =
      (baseFS, some (.fileNotFound "No such file or directory"))) ∧
    (demoRun2.runStarted = false) ∧
    ((demoRun2.log_metric "mse" (.num (7/2)) demoFS1).2 = none) ∧
    (loadDoc (demoRun2.log_metric "mse" (.num (7/2)) demoFS1).1
      ["base", "mlruns", "DefaultExperiment", "u1", "metrics.json"] =
      [("mse", [.num (7/2)])]) ∧
    ((LocalBackend.init ["base"]).log_metric "mse" (.num (7/2)) baseFS =
      (baseFS, some (.valueError "Logging method called without any active run"))) :=
  ⟨rfl, rfl, rfl, rfl, rfl⟩

/-- C3.  The claim says `start_run` with a sentinel run id (`None` or `0`)
fails with `InvalidRunId`.  The code contradicts its own guard: the
assignment `run_id or uuid.uuid1()` replaces the sentinel with a generated
uuid before the `== 0` check runs, so `LocalBackend.start_run` never raises
and silently starts a run under a generated id, for `0` and for `None`
alike. -/
theorem c3_sentinel_run_id_coerced (b : LocalBackend) (fresh : String) (fs : FS) :
    ((b.start_run_enter (some 0) fresh fs).2 = none ∧
     (b.start_run_enter (some 0) fresh fs).1.1.runStarted = .active (.uuid fresh)) ∧
    ((b.start_run_enter none fresh fs).2 = none ∧
     (b.start_run_enter none fresh fs).1.1.runStarted = .active (.uuid fresh)) :=
  ⟨⟨rfl, rfl⟩, ⟨rfl, rfl⟩⟩

/-- C5.  For every run and every string value, `log_metric` raises
`InvalidMetricType` (the `ValueError('Metrics should be only numerical')` of
the source) and returns the filesystem exactly as it was: the check precedes
any read or write of `metrics.json`. -/
theorem c5_string_metric_rejected (r : LocalRun) (m s : String) (fs : FS) :
    r.log_metric m (.str s) fs =
      (fs, some (.valueError "Metrics should be only numerical")) := rfl

/-- C8.  Backend auto-selection: `LocalBackend` when the tracking library is
not importable; `MLFlowBackend()` (tracking library's default URI) when it is
importable and `MLFLOW_TRACKING_URI` is unset; `MLFlowBackend(uri)` with the
environment-provided URI when it is set. -/
theorem c8_auto_backend_selection :
    (∀ env : Option String, get_auto_backend false env = .localStorage) ∧
    (get_auto_backend true none = .mlflowBackend none) ∧
    (∀ uri : String, get_auto_backend true (some uri) = .mlflowBackend (some uri)) :=
  ⟨fun _ => rfl, rfl, fun _ => rfl⟩

/-- C2, counterexample.  The claim says a hook-delivery failure never escapes
a lifecycle call.  Concretely, for both lifecycle calls: with one registered
RUN_STARTED hook whose URL is unreachable, `start_run` finishes with the
delivery's network error as its outcome, and with one registered RUN_ENDED
hook whose URL is unreachable, `end_run` likewise finishes with the network
error — the exception escapes to the caller, so the claim as stated is
false. -/
theorem c2_hook_failure_escapes_cex :
    ((hookedRun.start_run none "u1" delivFail baseFS).2 =
      ([], some (.requestError "connection refused"))) ∧
    ((endHookedRun.end_run delivFail).2 =
      ([], some (.requestError "connection refused"))) :=
  ⟨rfl, rfl⟩

/-- C2, amended.  `send_hook` performs `requests.post` with no exception
handling, so for each lifecycle call whose event has the only registered
hook's delivery raise, the call's state transition and filesystem effects
still happen — after `start_run` the run is ACTIVE and `log_environnment`
ran; after `end_run` the run is inactive — but the delivery error propagates
to the caller instead of being swallowed. -/
theorem c2_hook_failure_amended (r : LocalRun) (runId : Option Int)
    (fresh nm u : String) (deliver : String → Option PyErr) (fs : FS) (e : PyErr)
    (hd : deliver u = some e) :
    (lookupEvent r.hooks "run_started" = some [⟨nm, u⟩] →
      (r.start_run runId fresh deliver fs).1.1.runStarted = true ∧
      (r.start_run runId fresh deliver fs).1.2 =
        log_environnment (r.start_run runId fresh deliver fs).1.1.path fs ∧
      (r.start_run runId fresh deliver fs).2 = ([], some e)) ∧
    (lookupEvent r.hooks "run_ended" = some [⟨nm, u⟩] →
      (r.end_run deliver).1.runStarted = false ∧
      (r.end_run deliver).2 = ([], some e)) := by
  constructor
  · intro hh
    refine ⟨rfl, rfl, ?_⟩
    simp [LocalRun.start_run, with_hooks_wrapper, LocalRun.start_run_method,
      Hook.lowerName, hh, sendSeq, hd]
  · intro hh
    refine ⟨rfl, ?_⟩
    simp [LocalRun.end_run, with_hooks_wrapper, LocalRun.end_run_method,
      Hook.lowerName, hh, sendSeq, hd]

/-- C2, witness for the amended theorem: the unreachable RUN_STARTED hook on
`hookedRun` and the unreachable RUN_ENDED hook on the started
`endHookedRun`. -/
theorem c2_hook_failure_witness :
    (lookupEvent hookedRun.hooks "run_started" =
      some [⟨"h", "http://unreachable"⟩]) ∧
    (lookupEvent endHookedRun.hooks "run_ended" =
      some [⟨"h", "http://unreachable"⟩]) ∧
    (delivFail "http://unreachable" = some (.requestError "connection refused")) ∧
    ((hookedRun.start_run none "u1" delivFail baseFS).1.1.runStarted = true ∧
     (hookedRun.start_run none "u1" delivFail baseFS).2 =
       ([], some (.requestError "connection refused"))) ∧
    ((endHookedRun.end_run delivFail).1.runStarted = false ∧
     (endHookedRun.end_run delivFail).2 =
       ([], some (.requestError "connection refused"))) :=
  ⟨rfl, rfl, rfl,
    ⟨((c2_hook_failure_amended hookedRun none "u1" "h" "http://unreachable"
        delivFail baseFS (.requestError "connection refused") rfl).1 rfl).1,
      ((c2_hook_failure_amended hookedRun none "u1" "h" "http://unreachable"
        delivFail baseFS (.requestError "connection refused") rfl).1 rfl).2.2⟩,
    (c2_hook_failure_amended endHookedRun none "u1" "h" "http://unreachable"
        delivFail baseFS (.requestError "connection refused") rfl).2 rfl⟩

/-- C7, counterexample.  The claim says a failed primary operation still
sends a failed-status notification to every registered URL and then re-raises
the original exception unchanged.  Concretely: with two registered URLs whose
first delivery raises, no notification is recorded as delivered, the second
URL is never attempted, and the wrapper's outcome is the delivery error — the
original `ValueError('boom')` is masked, so the claim as stated is false. -/
theorem c7_failed_hook_masking_cex :
    with_hooks_wrapper Hook.RUN_STARTED hooksTwo "E" "1" delivFirstFails
      (some (.valueError "boom")) = ([], some (.requestError "down")) := rfl

/-- C7, amended.  Provided every hook delivery itself succeeds, a failed
wrapped operation still sends a notification with status `failed` carrying
`str(e)` to every registered URL for the event, in registration order and
only after the operation has run (the status is derived from the completed
operation's outcome), and then the wrapper re-raises the original exception
unchanged.  A delivery failure instead aborts the remaining notifications
and replaces the original exception. -/
theorem c7_failed_hooks_amended (ev : Hook) (hooks : List (String × List HookReg))
    (experiment runStr : String) (deliver : String → Option PyErr) (e : PyErr)
    (regs : List HookReg)
    (hh : lookupEvent hooks ev.lowerName = some regs)
    (hd : ∀ hr ∈ regs, deliver hr.url = none) :
    with_hooks_wrapper ev hooks experiment runStr deliver (some e) =
      (regs.map (fun hr =>
        { event := ev.enumName, status := "failed", message := some (errMsg e),
          experiment := experiment, run := runStr, url := hr.url }), some e) := by
  simp [with_hooks_wrapper, hh, sendSeq_all_delivered deliver _ regs hd]

/-- C7, witness for the amended theorem: one registered URL, delivery ok,
primary operation failed with `ValueError('boom')`. -/
theorem c7_failed_hooks_witness :
    (lookupEvent hooksOne Hook.RUN_STARTED.lowerName =
      some [⟨"h", "http://unreachable"⟩]) ∧
    with_hooks_wrapper Hook.RUN_STARTED hooksOne "E" "1" (fun _ => none)
      (some (.valueError "boom")) =
      ([{ event := "RUN_STARTED", status := "failed", message := some "boom",
          experiment := "E", run := "1", url := "http://unreachable" }],
       some (.valueError "boom")) :=
  ⟨rfl,
    c7_failed_hooks_amended Hook.RUN_STARTED hooksOne "E" "1" (fun _ => none)
      (.valueError "boom") [⟨"h", "http://unreachable"⟩] rfl
      (fun _ _ => rfl)⟩

/-- Projections of a wrapped `LocalRun.start_run`: the new path is the old
path with the run id joined on, the hooks mapping is kept, and the
filesystem effect is exactly `log_environnment` on the new path. -/
theorem start_run_projections (r : LocalRun) (runId : Option Int) (fresh : String)
    (deliver : String → Option PyErr) (fs : FS) :
    (r.start_run runId fresh deliver fs).1.1.path =
      r.path ++ [(ridOfArg runId fresh).str] ∧
    (r.start_run runId fresh deliver fs).1.1.runStarted = true ∧
    (r.start_run runId fresh deliver fs).1.2 =
      log_environnment (r.path ++ [(ridOfArg runId fresh).str]) fs :=
  ⟨rfl, rfl, rfl⟩

/-- `log_environnment` leaves its target directory marked as existing. -/
theorem log_environnment_dirs_self (p : FsPath) (fs : FS) (hp : p ≠ []) :
    (log_environnment p fs).dirs p = true :=
  makedirs_dirs_self fs hp

/-- C6.  Round-trip: starting a run, logging `alpha=0.05` and `mse=3.5`,
ending the run, then reading the persisted documents back through a fresh
`LocalRun` object pointed at the same base path yields
`parameters['alpha'] == [0.05]` and `metrics['mse'] == [3.5]`; and in
general every sequence of numeric `log_metric` calls appends each value to
its metric's sequence in call order. -/
theorem c6_roundtrip_append :
    ((expRun1.log_parameter "alpha" (.num (1/20)) expFS1).2 = none) ∧
    ((expRun1.log_metric "mse" (.num (7/2)) expFS2).2 = none) ∧
    ((expRun1.end_run (fun _ => none)).1.runStarted = false) ∧
    (expFS3.files (freshRun.path ++ ["run1", "parameters.json"]) =
      some (.doc [("alpha", [.num (1/20)])])) ∧
    (expFS3.files (freshRun.path ++ ["run1", "metrics.json"]) =
      some (.doc [("mse", [.num (7/2)])])) ∧
    (∀ (r : LocalRun) (calls : List (String × JsonVal)) (m : String) (fs : FS),
      fs.dirs r.path = true → (∀ c ∈ calls, (c.2).isNum = true) →
      (runLogMetrics r fs calls).2 = none ∧
      docLookup (metricsAt r (runLogMetrics r fs calls).1) m =
        docLookup (metricsAt r fs) m ++
          ((calls.filter (fun c => decide (c.1 = m))).map Prod.snd)) :=
  ⟨rfl, rfl, rfl, rfl, rfl,
    fun r calls m fs h1 h2 => runLogMetrics_spec r calls m fs h1 h2⟩

/-- C6, witness: the general appending clause applied to a concrete
three-call sequence on the started round-trip run. -/
theorem c6_roundtrip_witness :
    (expFS1.dirs expRun1.path = true) ∧
    ((runLogMetrics expRun1 expFS1
        [("mse", .num 1), ("rmse", .num 2), ("mse", .num 3)]).2 = none ∧
     docLookup (metricsAt expRun1 (runLogMetrics expRun1 expFS1
        [("mse", .num 1), ("rmse", .num 2), ("mse", .num 3)]).1) "mse" =
       docLookup (metricsAt expRun1 expFS1) "mse" ++
         ((([("mse", JsonVal.num 1), ("rmse", JsonVal.num 2),
             ("mse", JsonVal.num 3)].filter
            (fun c => decide (c.1 = "mse"))).map Prod.snd))) :=
  ⟨rfl, c6_roundtrip_append.2.2.2.2.2 expRun1
    [("mse", .num 1), ("rmse", .num 2), ("mse", .num 3)] "mse" expFS1 rfl
    (by decide)⟩

/-- C9.  `LocalRun.log_metric` rejects a value exactly when it is a string
instance: a string is refused with the `ValueError` before any filesystem
access, while every non-string value (null, booleans, arrays, objects — not
only numbers) passes the check and is appended to the metric's sequence
without error. -/
theorem c9_reject_iff_string (r : LocalRun) (m : String) (v : JsonVal) (fs : FS)
    (hdir : fs.dirs r.path = true) :
    (v.isStr = true →
      r.log_metric m v fs =
        (fs, some (.valueError "Metrics should be only numerical"))) ∧
    (v.isStr = false →
      (r.log_metric m v fs).2 = none ∧
      docLookup (metricsAt r ((r.log_metric m v fs).1)) m =
        docLookup (metricsAt r fs) m ++ [v]) := by
  constructor
  · intro h
    simp [LocalRun.log_metric, h]
  · intro h
    exact log_metric_append r m v fs hdir h

/-- C9, witness: a JSON object (a Python dict) and a string, both on the
started round-trip run. -/
theorem c9_reject_iff_string_witness :
    (expFS1.dirs expRun1.path = true) ∧
    ((JsonVal.obj []).isStr = false →
      (expRun1.log_metric "m" (.obj []) expFS1).2 = none ∧
      docLookup (metricsAt expRun1 ((expRun1.log_metric "m" (.obj []) expFS1).1)) "m" =
        docLookup (metricsAt expRun1 expFS1) "m" ++ [.obj []]) ∧
    ((JsonVal.str "x").isStr = true →
      expRun1.log_metric "m" (.str "x") expFS1 =
        (expFS1, some (.valueError "Metrics should be only numerical"))) :=
  ⟨rfl, (c9_reject_iff_string expRun1 "m" (.obj []) expFS1 rfl).2,
    (c9_reject_iff_string expRun1 "m" (.str "x") expFS1 rfl).1⟩

/-- C10.  `LocalRun.start_run` joins the run id onto the object's *current*
`self._path` rather than recomputing it from the base, so a second
`start_run` on the same object nests its logging path inside the first run's
directory: the path becomes `<base>/mlruns/<experiment>/<id1>/<id2>`, and a
subsequent `log_metric` appends to the metrics document at that nested
path. -/
theorem c10_nested_run_path (base : FsPath) (en f1 f2 : String)
    (deliver : String → Option PyErr) (fs : FS) (q : ℚ)
    (r1 : LocalRun) (fs1 : FS) (r2 : LocalRun) (fs2 : FS)
    (h1 : ((LocalRun.init base en []).start_run none f1 deliver fs).1 = (r1, fs1))
    (h2 : (r1.start_run none f2 deliver fs1).1 = (r2, fs2)) :
    r2.path = base ++ ["mlruns", en, f1, f2] ∧
    r2.path = r1.path ++ [f2] ∧
    (r2.log_metric "m" (.num q) fs2).2 = none ∧
    docLookup (metricsAt r2 ((r2.log_metric "m" (.num q) fs2).1)) "m" =
      docLookup (metricsAt r2 fs2) "m" ++ [.num q] := by
  have hr1 : r1 = ((LocalRun.init base en []).start_run none f1 deliver fs).1.1 := by
    rw [h1]
  have hf1 : fs1 = ((LocalRun.init base en []).start_run none f1 deliver fs).1.2 := by
    rw [h1]
  subst hr1
  have hr2 : r2 = ((((LocalRun.init base en []).start_run none f1 deliver
      fs).1.1).start_run none f2 deliver fs1).1.1 := by rw [h2]
  have hf2 : fs2 = ((((LocalRun.init base en []).start_run none f1 deliver
      fs).1.1).start_run none f2 deliver fs1).1.2 := by rw [h2]
  subst hr2 hf2 hf1
  have hpath : ((((LocalRun.init base en []).start_run none f1 deliver
      fs).1.1).start_run none f2 deliver
      (((LocalRun.init base en []).start_run none f1 deliver fs).1.2)).1.1.path =
      ((base ++ ["mlruns", en]) ++ [f1]) ++ [f2] := rfl
  have hdir : (((((LocalRun.init base en []).start_run none f1 deliver
      fs).1.1).start_run none f2 deliver
      (((LocalRun.init base en []).start_run none f1 deliver fs).1.2)).1.2).dirs
      (((((LocalRun.init base en []).start_run none f1 deliver
      fs).1.1).start_run none f2 deliver
      (((LocalRun.init base en []).start_run none f1 deliver fs).1.2)).1.1.path)
      = true := by
    show (log_environnment (((base ++ ["mlruns", en]) ++ [f1]) ++ [f2])
      (log_environnment ((base ++ ["mlruns", en]) ++ [f1]) fs)).dirs
      (((base ++ ["mlruns", en]) ++ [f1]) ++ [f2]) = true
    exact log_environnment_dirs_self _ _ (by simp)
  have happ := log_metric_append
    ((((LocalRun.init base en []).start_run none f1 deliver
      fs).1.1).start_run none f2 deliver
      (((LocalRun.init base en []).start_run none f1 deliver fs).1.2)).1.1
    "m" (.num q)
    ((((LocalRun.init base en []).start_run none f1 deliver
      fs).1.1).start_run none f2 deliver
      (((LocalRun.init base en []).start_run none f1 deliver fs).1.2)).1.2
    hdir rfl
  refine ⟨?_, rfl, happ.1, happ.2⟩
  rw [hpath]
  simp

/-- C10, witness with the concrete double-start trace. -/
theorem c10_nested_run_path_witness :
    (nest1.1 = (nestRun1, nestFS1) ∧ nest2.1 = (nestRun2, nestFS2)) ∧
    (nestRun2.path = ["base"] ++ ["mlruns", "exp2", "id1", "id2"] ∧
     nestRun2.path = nestRun1.path ++ ["id2"] ∧
     (nestRun2.log_metric "m" (.num 1) nestFS2).2 = none ∧
     docLookup (metricsAt nestRun2 ((nestRun2.log_metric "m" (.num 1) nestFS2).1)) "m" =
       docLookup (metricsAt nestRun2 nestFS2) "m" ++ [.num 1]) :=
  ⟨⟨rfl, rfl⟩,
    c10_nested_run_path ["base"] "exp2" "id1" "id2" (fun _ => none) FS.empty 1
      nestRun1 nestFS1 nestRun2 nestFS2 rfl rfl⟩

/-- Equal-prefix paths with different next segments are different paths. -/
theorem append_cons_ne {a : FsPath} {x y : String} {u v : FsPath} (hxy : x ≠ y) :
    a ++ (x :: u) ≠ a ++ (y :: v) := by
  intro h
  have h' := List.append_cancel_left h
  simp at h'
  exact hxy h'.1

/-- `makedirs` does not change any file contents, so the run metadata read
is unaffected. -/
theorem getMetadata_makedirs (r : LocalRun) (fs : FS) (p : FsPath) :
    r.getMetadata (fs.makedirs p) = r.getMetadata fs := rfl

/-- Characterisation of a succeeding `copytree`: destination fresh, source a
directory. -/
theorem copytree_ok (fs : FS) (src dst : FsPath) (hdst : fs.dirs dst = false)
    (hsrc : fs.dirs src = true) :
    fs.copytree src dst =
      ({ files := fun t =>
           if underDir dst t then
             match fs.files (src ++ t.drop dst.length) with
             | some d => some d
             | none => fs.files t
           else fs.files t,
         dirs := fun q =>
           fs.dirs q || (q.isPrefixOf dst && !q.isEmpty) ||
             (underDir dst q && fs.dirs (src ++ q.drop dst.length)) }, none) := by
  simp [FS.copytree, hdst, hsrc]

/-- The copied subtree of a succeeding `copytree` holds every source file at
the corresponding relative path. -/
theorem copytree_files (fs : FS) (src dst : FsPath) (hdst : fs.dirs dst = false)
    (hsrc : fs.dirs src = true) {p : FsPath} {d : FileData}
    (hp : underDir src p = true) (hf : fs.files p = some d) :
    (fs.copytree src dst).1.files (dst ++ p.drop src.length) = some d := by
  obtain ⟨t, htne, hteq⟩ := underDir_decomp hp
  subst hteq
  rw [copytree_ok fs src dst hdst hsrc]
  simp only [List.drop_left]
  rw [show underDir dst (dst ++ t) = true from underDir_append htne]
  simp only [if_pos rfl, List.drop_left, hf]
  simp [underDir_append htne]

/-- A succeeding `copytree` keeps every directory that already existed. -/
theorem copytree_dirs_mono (fs : FS) (src dst : FsPath) (hdst : fs.dirs dst = false)
    (hsrc : fs.dirs src = true) {q : FsPath} (h : fs.dirs q = true) :
    (fs.copytree src dst).1.dirs q = true := by
  rw [copytree_ok fs src dst hdst hsrc]
  simp [h]

/-- `shutil.copy` onto a non-existing destination path writes the file at
that very path (this is the behaviour behind the single-file model bug). -/
theorem copyFile_to_missing (fs : FS) (src dst : FsPath) (d : FileData)
    (hf : fs.files src = some d) (hdst : fs.dirs dst = false)
    (hparent : fs.dirs (parentDir dst) = true) :
    fs.copyFile src dst = (fs.writeFile dst d, none) := by
  simp [FS.copyFile, hf, hdst, hparent]

/-- `shutil.copy` into an existing destination directory writes the file
under its own basename. -/
theorem copyFile_to_dir (fs : FS) (src dst : FsPath) (d : FileData)
    (hf : fs.files src = some d) (hdst : fs.dirs dst = true) :
    fs.copyFile src dst = (fs.writeFile (dst ++ [lastSeg src]) d, none) := by
  simp [FS.copyFile, hf, hdst, parentDir]

/-- `writeFile` does not change the directory structure. -/
theorem writeFile_dirs (fs : FS) (p : FsPath) (d : FileData) :
    (fs.writeFile p d).dirs = fs.dirs := rfl


/-- Characterisation of `log_model` on the PYFUNC path with a directory
source: the whole source tree is `copytree`d below
`artifacts/<output_dir>/data/<dirname>` and the refreshed metadata is
rewritten to `meta.json`. -/
theorem log_model_pyfunc_dir (r : LocalRun) (fs : FS) (md : List (String × JsonVal))
    (outputDir : String) (m : FsPath) (lep now : String)
    (hmeta : r.getMetadata fs = some md) (hrp : r.path ≠ []) (hlep : lep ≠ "")
    (hm : (fs.makedirs (r.path ++ ["artifacts", outputDir])).dirs m = true)
    (hnt : (fs.makedirs (r.path ++ ["artifacts", outputDir])).dirs
      (r.path ++ ["artifacts", outputDir] ++ ["data"] ++ [lastSeg m]) = false) :
    r.log_model (.path m) outputDir .PYFUNC (some lep) now fs =
      (FS.writeFile
        ((fs.makedirs (r.path ++ ["artifacts", outputDir])).copytree m
          (r.path ++ ["artifacts", outputDir] ++ ["data"] ++ [lastSeg m])).1
        (r.path ++ ["meta.json"])
        (.metaDoc (setKey (setKey md "loadEntryPoint" (.str lep))
          "updateTime" (.str now))),
       none) := by
  have hmeta2 : r.getMetadata (fs.makedirs (r.path ++ ["artifacts", outputDir])) =
      some md := hmeta
  have hAr : (fs.makedirs (r.path ++ ["artifacts", outputDir])).dirs r.path = true :=
    makedirs_dirs_of_isPrefixOf fs hrp (isPrefixOf_append_right _ _)
  simp only [LocalRun.log_model, hmeta2, hm, if_true, strTruthy, hlep, Option.getD]
  simp only [decide_False, Bool.not_false, Bool.not_true, Bool.false_eq_true, if_false]
  rw [copytree_ok _ m _ hnt hm]
  simp only [FS.openWrite, parentDir, List.dropLast_concat, hAr, Bool.true_or, if_true]

/-- Characterisation of `log_model` on the PYFUNC path with a single-file
source when `artifacts/<output_dir>/data` does not yet exist as a directory:
`shutil.copy` writes the model bytes to the file literally named `data`. -/
theorem log_model_pyfunc_file_missing (r : LocalRun) (fs : FS)
    (md : List (String × JsonVal)) (outputDir : String) (m : FsPath)
    (lep now : String) (d : FileData)
    (hmeta : r.getMetadata fs = some md) (hrp : r.path ≠ []) (hlep : lep ≠ "")
    (hnd : (fs.makedirs (r.path ++ ["artifacts", outputDir])).dirs m = false)
    (hf : fs.files m = some d)
    (hdd : (fs.makedirs (r.path ++ ["artifacts", outputDir])).dirs
      (r.path ++ ["artifacts", outputDir] ++ ["data"]) = false) :
    r.log_model (.path m) outputDir .PYFUNC (some lep) now fs =
      (FS.writeFile
        ((fs.makedirs (r.path ++ ["artifacts", outputDir])).writeFile
          (r.path ++ ["artifacts", outputDir] ++ ["data"]) d)
        (r.path ++ ["meta.json"])
        (.metaDoc (setKey (setKey md "loadEntryPoint" (.str lep))
          "updateTime" (.str now))),
       none) := by
  have hmeta2 : r.getMetadata (fs.makedirs (r.path ++ ["artifacts", outputDir])) =
      some md := hmeta
  have hAr : (fs.makedirs (r.path ++ ["artifacts", outputDir])).dirs r.path = true :=
    makedirs_dirs_of_isPrefixOf fs hrp (isPrefixOf_append_right _ _)
  have hf2 : (fs.makedirs (r.path ++ ["artifacts", outputDir])).files m = some d := hf
  have hparent : (fs.makedirs (r.path ++ ["artifacts", outputDir])).dirs
      (parentDir (r.path ++ ["artifacts", outputDir] ++ ["data"])) = true := by
    simp only [parentDir, List.dropLast_concat]
    exact makedirs_dirs_self fs (by simp)
  simp only [LocalRun.log_model, hmeta2, hnd, Bool.false_eq_true, if_false,
    strTruthy, hlep, Option.getD]
  simp only [decide_False, Bool.not_false, Bool.not_true, Bool.false_eq_true, if_false]
  rw [copyFile_to_missing _ m _ d hf2 hdd hparent]
  simp only [FS.openWrite, parentDir, List.dropLast_concat, FS.writeFile, hAr, if_true]

/-- Characterisation of `log_model` on the PYFUNC path with a single-file
source when `artifacts/<output_dir>/data` already exists as a directory:
the model file is copied to `data/<basename>`. -/
theorem log_model_pyfunc_file_dircase (r : LocalRun) (fs : FS)
    (md : List (String × JsonVal)) (outputDir : String) (m : FsPath)
    (lep now : String) (d : FileData)
    (hmeta : r.getMetadata fs = some md) (hrp : r.path ≠ []) (hlep : lep ≠ "")
    (hnd : (fs.makedirs (r.path ++ ["artifacts", outputDir])).dirs m = false)
    (hf : fs.files m = some d)
    (hdd : (fs.makedirs (r.path ++ ["artifacts", outputDir])).dirs
      (r.path ++ ["artifacts", outputDir] ++ ["data"]) = true) :
    r.log_model (.path m) outputDir .PYFUNC (some lep) now fs =
      (FS.writeFile
        ((fs.makedirs (r.path ++ ["artifacts", outputDir])).writeFile
          (r.path ++ ["artifacts", outputDir] ++ ["data"] ++ [lastSeg m]) d)
        (r.path ++ ["meta.json"])
        (.metaDoc (setKey (setKey md "loadEntryPoint" (.str lep))
          "updateTime" (.str now))),
       none) := by
  have hmeta2 : r.getMetadata (fs.makedirs (r.path ++ ["artifacts", outputDir])) =
      some md := hmeta
  have hAr : (fs.makedirs (r.path ++ ["artifacts", outputDir])).dirs r.path = true :=
    makedirs_dirs_of_isPrefixOf fs hrp (isPrefixOf_append_right _ _)
  have hf2 : (fs.makedirs (r.path ++ ["artifacts", outputDir])).files m = some d := hf
  simp only [LocalRun.log_model, hmeta2, hnd, Bool.false_eq_true, if_false,
    strTruthy, hlep, Option.getD]
  simp only [decide_False, Bool.not_false, Bool.not_true, Bool.false_eq_true, if_false]
  rw [copyFile_to_dir _ m _ d hf2 hdd]
  simp only [FS.openWrite, parentDir, List.dropLast_concat, FS.writeFile, hAr, if_true]

/-- C4, amended.  With the run metadata present: (a) a PYFUNC `log_model`
without `load_entry_point` fails with `MissingEntryPoint` (the source's
`ValueError`); (b) with a directory source, every file under the source
appears under `artifacts/<output_dir>/data/<dirname>/` with identical
relative path and content; (c) with a single-file source the destination
depends on whether `<output_dir>/data` already exists as a directory — only
then does the file land at `data/<basename>`; on a fresh run directory it is
written to a file literally named `data`.  The claim's unconditional
single-file clause is what the counterexample refutes. -/
theorem c4_log_model_pyfunc_amended (r : LocalRun) (fs : FS)
    (md : List (String × JsonVal)) (outputDir : String) (m : FsPath)
    (lep now : String)
    (hmeta : r.getMetadata fs = some md) (hrp : r.path ≠ []) (hlep : lep ≠ "") :
    ((r.log_model (.path m) outputDir .PYFUNC none now fs).2 =
       some (.valueError "For Pyfunc models, param load_entry_point needs to be passed")) ∧
    ((fs.makedirs (r.path ++ ["artifacts", outputDir])).dirs m = true →
     (fs.makedirs (r.path ++ ["artifacts", outputDir])).dirs
       (r.path ++ ["artifacts", outputDir] ++ ["data"] ++ [lastSeg m]) = false →
     (r.log_model (.path m) outputDir .PYFUNC (some lep) now fs).2 = none ∧
     (∀ p d, underDir m p = true → fs.files p = some d →
       (r.log_model (.path m) outputDir .PYFUNC (some lep) now fs).1.files
         ((r.path ++ ["artifacts", outputDir] ++ ["data"] ++ [lastSeg m]) ++
           p.drop m.length) = some d)) ∧
    ((fs.makedirs (r.path ++ ["artifacts", outputDir])).dirs m = false →
     ∀ d, fs.files m = some d →
     (r.log_model (.path m) outputDir .PYFUNC (some lep) now fs).2 = none ∧
     ((fs.makedirs (r.path ++ ["artifacts", outputDir])).dirs
        (r.path ++ ["artifacts", outputDir] ++ ["data"]) = false →
      (r.log_model (.path m) outputDir .PYFUNC (some lep) now fs).1.files
        (r.path ++ ["artifacts", outputDir] ++ ["data"]) = some d) ∧
     ((fs.makedirs (r.path ++ ["artifacts", outputDir])).dirs
        (r.path ++ ["artifacts", outputDir] ++ ["data"]) = true →
      (r.log_model (.path m) outputDir .PYFUNC (some lep) now fs).1.files
        (r.path ++ ["artifacts", outputDir] ++ ["data"] ++ [lastSeg m]) = some d)) := by
  refine ⟨?_, ?_, ?_⟩
  · have hmeta2 : r.getMetadata (fs.makedirs (r.path ++ ["artifacts", outputDir])) =
        some md := hmeta
    simp [LocalRun.log_model, hmeta2, strTruthy]
  · intro hm hnt
    rw [log_model_pyfunc_dir r fs md outputDir m lep now hmeta hrp hlep hm hnt]
    refine ⟨rfl, ?_⟩
    intro p d hu hf
    have hf2 : (fs.makedirs (r.path ++ ["artifacts", outputDir])).files p = some d := hf
    have hne : ((r.path ++ ["artifacts", outputDir] ++ ["data"] ++ [lastSeg m]) ++
        p.drop m.length) ≠ (r.path ++ ["meta.json"]) := by
      simp
    show (FS.writeFile _ _ _).files _ = some d
    rw [writeFile_files_ne _ _ hne]
    exact copytree_files _ m _ hnt hm hu hf2
  · intro hnd d hf
    refine ⟨?_, ?_, ?_⟩
    · by_cases hdd : (fs.makedirs (r.path ++ ["artifacts", outputDir])).dirs
          (r.path ++ ["artifacts", outputDir] ++ ["data"]) = true
      · rw [log_model_pyfunc_file_dircase r fs md outputDir m lep now d hmeta hrp hlep hnd hf hdd]
      · rw [log_model_pyfunc_file_missing r fs md outputDir m lep now d hmeta hrp hlep hnd hf
          (by simpa using hdd)]
    · intro hdd
      rw [log_model_pyfunc_file_missing r fs md outputDir m lep now d hmeta hrp hlep hnd hf hdd]
      have hne : (r.path ++ ["artifacts", outputDir] ++ ["data"]) ≠
          (r.path ++ ["meta.json"]) := by
        simp
      show (FS.writeFile _ _ _).files _ = some d
      rw [writeFile_files_ne _ _ hne]
      exact writeFile_files_same _ _ _
    · intro hdd
      rw [log_model_pyfunc_file_dircase r fs md outputDir m lep now d hmeta hrp hlep hnd hf hdd]
      have hne : (r.path ++ ["artifacts", outputDir] ++ ["data"] ++ [lastSeg m]) ≠
          (r.path ++ ["meta.json"]) := by
        simp
      show (FS.writeFile _ _ _).files _ = some d
      rw [writeFile_files_ne _ _ hne]
      exact writeFile_files_same _ _ _

/-- C4, counterexample.  On a fresh run directory (no `data` directory yet),
logging the single-file PYFUNC model `b/src.pkl` into `output_dir = model`
succeeds but writes the bytes to the file literally named
`artifacts/model/data`; the destination the claim names,
`artifacts/model/data/src.pkl`, does not exist. -/
theorem c4_single_file_dest_cex :
    pyfuncRes.2 = none ∧
    pyfuncRes.1.files ["b", "mlruns", "E", "r1", "artifacts", "model", "data"] =
      some (.raw "MODEL") ∧
    pyfuncRes.1.files
      ["b", "mlruns", "E", "r1", "artifacts", "model", "data", "src.pkl"] = none :=
  ⟨rfl, rfl, rfl⟩

/-- C4, witness: the amended theorem applied to the concrete run, once with
the directory source `b/srcdir` (its file reappears under
`data/srcdir/f.pkl`) and once conjoined with the missing-entry-point
instance. -/
theorem c4_log_model_witness :
    (pyfuncRun.getMetadata pyfuncDirFS = some envInfos) ∧
    ((pyfuncRun.log_model (.path ["b", "srcdir"]) "model" .PYFUNC none "T"
        pyfuncDirFS).2 =
      some (.valueError "For Pyfunc models, param load_entry_point needs to be passed")) ∧
    ((pyfuncRun.log_model (.path ["b", "srcdir"]) "model" .PYFUNC (some "mod.load") "T"
        pyfuncDirFS).2 = none) ∧
    ((pyfuncRun.log_model (.path ["b", "srcdir"]) "model" .PYFUNC (some "mod.load") "T"
        pyfuncDirFS).1.files
      ((pyfuncRun.path ++ ["artifacts", "model"] ++ ["data"] ++ [lastSeg ["b", "srcdir"]]) ++
        (["b", "srcdir", "f.pkl"].drop (["b", "srcdir"] : FsPath).length)) =
      some (.raw "M")) :=
  ⟨rfl,
    (c4_log_model_pyfunc_amended pyfuncRun pyfuncDirFS envInfos "model"
      ["b", "srcdir"] "mod.load" "T" rfl (by decide) (by decide)).1,
    ((c4_log_model_pyfunc_amended pyfuncRun pyfuncDirFS envInfos "model"
      ["b", "srcdir"] "mod.load" "T" rfl (by decide) (by decide)).2.1 rfl rfl).1,
    ((c4_log_model_pyfunc_amended pyfuncRun pyfuncDirFS envInfos "model"
      ["b", "srcdir"] "mod.load" "T" rfl (by decide) (by decide)).2.1 rfl rfl).2
      ["b", "srcdir", "f.pkl"] (.raw "M") (by decide) rfl⟩
